import Mathlib

/-!
Shallow embedding of the metrics/analysis core of the translation-analysis
repository: the `Embedder` wrapper (src/src/metrics/embeddings.py), the
`VectorMetrics` distance calculator (src/src/metrics/distance.py) and the
`ResultsAnalyzer` aggregation layer (src/src/ui/comparison.py).

Modelling conventions:
* numpy float arrays are modelled as lists of real numbers (`Vec`), with
  exact real arithmetic standing in for IEEE doubles;
* a Python float that can be NaN (the scipy cosine of a zero-norm vector is
  0/0 = NaN) is modelled as `Option ℝ`, `none` standing for a non-finite
  value; all other float results of the core are finite reals;
* Python exceptions become `Except` values carrying the message string.
-/

namespace TransAnalysis

/-- A numpy 1-d float array in exact real semantics. -/
abbrev Vec := List ℝ

/-- np.dot of two 1-d arrays. -/
def dot (u v : Vec) : ℝ := (List.zipWith (fun a b => a * b) u v).sum

/-- Squared L2 norm, np.dot(v, v), as computed inside scipy cosine. -/
def norm2 (v : Vec) : ℝ := dot v v

/-- A Python float that is either finite (`some`) or NaN/inf (`none`). -/
abbrev PyFloat := Option ℝ

/-- scipy.spatial.distance.cosine: 1 - uv / sqrt(uu * vv).  When either
vector has zero norm the division is 0/0 = NaN (`none`); the clip to [0,2]
performed by recent scipy versions is the identity on the finite value by
Cauchy-Schwarz and is therefore not modelled separately. -/
noncomputable def scipyCosine (u v : Vec) : PyFloat :=
  if norm2 u * norm2 v = 0 then none
  else some (1 - dot u v / Real.sqrt (norm2 u * norm2 v))

namespace VectorMetrics

/-- VectorMetrics.cosine_distance: float(cosine(vec1, vec2)). -/
noncomputable def cosine_distance (vec1 vec2 : Vec) : PyFloat :=
  scipyCosine vec1 vec2

/-- VectorMetrics.cosine_similarity: float(1.0 - cosine(vec1, vec2));
NaN propagates through the subtraction. -/
noncomputable def cosine_similarity (vec1 vec2 : Vec) : PyFloat :=
  (scipyCosine vec1 vec2).map (fun d => 1 - d)

/-- VectorMetrics.euclidean_distance: sqrt of the sum of squared
componentwise differences (scipy euclidean). -/
noncomputable def euclidean_distance (vec1 vec2 : Vec) : ℝ :=
  Real.sqrt ((List.zipWith (fun a b => (a - b) * (a - b)) vec1 vec2).sum)

/-- VectorMetrics.manhattan_distance: float(np.sum(np.abs(vec1 - vec2))). -/
def manhattan_distance (vec1 vec2 : Vec) : ℝ :=
  (List.zipWith (fun a b => |a - b|) vec1 vec2).sum

end VectorMetrics

/-- Errors raised by the metrics core.  In Python both are `ValueError`;
the spec names them `InputError` and `UnsupportedMetricError`, and they are
distinguished by their message. -/
inductive EmbedError where
  | inputError (msg : String)
  | unsupportedMetric (msg : String)
deriving DecidableEq, Repr

/-- Python `not text.strip()`: true iff the string is empty or consists of
whitespace only. -/
def isBlank (s : String) : Bool := s.toList.all Char.isWhitespace

/-- L2 unit-normalization of one embedding as performed by
sentence-transformers when `normalize_embeddings=True` (torch F.normalize;
a zero vector is mapped to itself via the epsilon clamp). -/
noncomputable def snNormalize (v : Vec) : Vec :=
  if norm2 v = 0 then v else v.map (fun x => x / Real.sqrt (norm2 v))

/-- Embedder (src/src/metrics/embeddings.py).  The two backends are
abstract functions from a text to its raw embedding: `model` is the local
sentence-transformer, `client` the OpenAI embeddings API. -/
structure Embedder where
  use_openai : Bool
  model : String → Vec
  client : String → Vec

/-- Argument to Embedder.encode: a single string or a list of strings. -/
inductive EncodeInput where
  | str (s : String)
  | batch (l : List String)

/-- Result of Embedder.encode: a 1-d array for a single text or a 2-d
array for a list of texts. -/
inductive EncodeOutput where
  | single (v : Vec)
  | matrix (vs : List Vec)

/-- numpy .shape of an encode result: (dim,) for a single embedding,
(num_texts, dim) for a batch. -/
def EncodeOutput.shape : EncodeOutput → List Nat
  | .single v => [v.length]
  | .matrix vs => [vs.length, (vs.headD []).length]

/-- Embedder._encode_sentence_transformer: the library normalizes each
embedding internally when asked to. -/
noncomputable def encodeSentenceTransformer (e : Embedder) (texts : List String)
    (normalize : Bool) : List Vec :=
  texts.map (fun t => if normalize then snNormalize (e.model t) else e.model t)

/-- Embedder._encode_openai: one API call per text; the `normalize`
argument of `encode` is not passed down this path. -/
def encodeOpenai (e : Embedder) (texts : List String) : List Vec :=
  texts.map e.client

/-- Embedder.encode (src/src/metrics/embeddings.py lines 78-117):
validate the input, dispatch to the configured backend, and return
`embeddings[0]` for a single-string input. -/
noncomputable def Embedder.encode (e : Embedder) (text : EncodeInput)
    (normalize : Bool) : Except EmbedError EncodeOutput :=
  match text with
  | .str s =>
      if isBlank s then .error (.inputError "Input text cannot be empty")
      else
        let embeddings :=
          if e.use_openai then encodeOpenai e [s]
          else encodeSentenceTransformer e [s] normalize
        .ok (.single (embeddings.headD []))
  | .batch l =>
      if l.isEmpty || l.any isBlank then
        .error (.inputError "Input texts cannot be empty")
      else
        let embeddings :=
          if e.use_openai then encodeOpenai e l
          else encodeSentenceTransformer e l normalize
        .ok (.matrix embeddings)

/-- The single-text embedding with normalize=False, as used by
calculate_distance / calculate_all_metrics: the raw backend output. -/
def rawEmbed (e : Embedder) (t : String) : Vec :=
  if e.use_openai then e.client t else e.model t

/-- The single-text embedding with normalize=True, as used by
calculate_similarity (cosine branch).  The OpenAI path ignores the flag. -/
noncomputable def normEmbed (e : Embedder) (t : String) : Vec :=
  if e.use_openai then e.client t else snNormalize (e.model t)

/-- self.embedder.encode(text, normalize=...) on a single string,
projected to the embedding vector or the raised error. -/
noncomputable def embedText (e : Embedder) (t : String) (normalize : Bool) :
    Except EmbedError Vec :=
  match e.encode (.str t) normalize with
  | .ok (.single v) => .ok v
  | .ok (.matrix vs) => .ok (vs.headD [])
  | .error err => .error err

namespace VectorMetrics

/-- The supported_metrics list of calculate_distance. -/
def supported_metrics : List String := ["cosine", "euclidean", "manhattan"]

/-- The ValueError message of calculate_distance for an unsupported
metric, with the Python list repr of supported_metrics interpolated. -/
def unsupportedMsg (metric : String) : String :=
  "Metric '" ++ metric ++ "' not supported. Use one of: " ++
    "['cosine', 'euclidean', 'manhattan']"

/-- VectorMetrics.calculate_distance (distance.py lines 39-85): check the
metric name, embed both texts with normalize=False, dispatch. -/
noncomputable def calculate_distance (e : Embedder) (text1 text2 metric : String) :
    Except EmbedError PyFloat :=
  if metric ∈ supported_metrics then
    match embedText e text1 false, embedText e text2 false with
    | .ok emb1, .ok emb2 =>
        if metric = "cosine" then .ok (cosine_distance emb1 emb2)
        else if metric = "euclidean" then .ok (some (euclidean_distance emb1 emb2))
        else .ok (some (manhattan_distance emb1 emb2))
    | .error err, _ => .error err
    | _, .error err => .error err
  else
    .error (.unsupportedMetric (unsupportedMsg metric))

/-- VectorMetrics.calculate_similarity (distance.py lines 87-117): cosine
uses normalize=True embeddings; euclidean is 1/(1+distance). -/
noncomputable def calculate_similarity (e : Embedder) (text1 text2 metric : String) :
    Except EmbedError PyFloat :=
  if metric = "cosine" then
    match embedText e text1 true, embedText e text2 true with
    | .ok emb1, .ok emb2 => .ok (cosine_similarity emb1 emb2)
    | .error err, _ => .error err
    | _, .error err => .error err
  else if metric = "euclidean" then
    match calculate_distance e text1 text2 "euclidean" with
    | .ok (some d) => .ok (some (1 / (1 + d)))
    | .ok none => .ok none
    | .error err => .error err
  else
    .error (.unsupportedMetric ("Similarity metric '" ++ metric ++ "' not supported"))

end VectorMetrics

/-- The dictionary returned by calculate_all_metrics.  The two cosine
fields can be NaN (zero-norm vectors); euclidean and manhattan distances
of finite vectors are always finite. -/
structure MetricSet where
  cosine_distance : PyFloat
  cosine_similarity : PyFloat
  euclidean_distance : ℝ
  manhattan_distance : ℝ

/-- VectorMetrics.calculate_all_metrics (distance.py lines 187-222):
embed each text once with normalize=False and derive all four values from
the same two vectors. -/
noncomputable def calculate_all_metrics (e : Embedder) (text1 text2 : String) :
    Except EmbedError MetricSet :=
  match embedText e text1 false, embedText e text2 false with
  | .ok emb1, .ok emb2 =>
      .ok { cosine_distance := VectorMetrics.cosine_distance emb1 emb2
            cosine_similarity := VectorMetrics.cosine_similarity emb1 emb2
            euclidean_distance := VectorMetrics.euclidean_distance emb1 emb2
            manhattan_distance := VectorMetrics.manhattan_distance emb1 emb2 }
  | .error err, _ => .error err
  | _, .error err => .error err

/-- Split a character list at every whitespace character, keeping the
(possibly empty) pieces between consecutive separators. -/
def splitWS : List Char → List (List Char)
  | [] => [[]]
  | c :: cs =>
      let rest := splitWS cs
      if c.isWhitespace then [] :: rest
      else (c :: rest.headD []) :: rest.tail

/-- Python str.split() with no argument: split on runs of whitespace,
discarding empty pieces. -/
def pySplit (s : String) : List String :=
  ((splitWS s.toList).map (fun w => String.mk w)).filter (fun w => w ≠ "")

/-- The statistics dictionary of calculate_text_changes.  The retention
rate len(common)/len(original_words) is exact rational division in the
model. -/
structure TextChanges where
  original_word_count : Nat
  final_word_count : Nat
  common_words : Nat
  added_words : Nat
  removed_words : Nat
  word_retention_rate : ℚ
deriving DecidableEq, Repr

/-- ResultsAnalyzer.calculate_text_changes (comparison.py lines 56-89):
whitespace word split, set intersection/differences, and a retention rate
guarded only against an empty original word list. -/
def calculate_text_changes (original final : String) : TextChanges :=
  let original_words := pySplit original
  let final_words := pySplit final
  let original_set := original_words.toFinset
  let final_set := final_words.toFinset
  { original_word_count := original_words.length
    final_word_count := final_words.length
    common_words := (original_set ∩ final_set).card
    added_words := (final_set \ original_set).card
    removed_words := (original_set \ final_set).card
    word_retention_rate :=
      if original_words.isEmpty then 0
      else ((original_set ∩ final_set).card : ℚ) / (original_words.length : ℚ) }

/-- A pandas DataFrame restricted to what compare_metrics_across_levels
consults: named float columns over an ordered row list.  Each row maps a
column name to its float value (exact rationals in the model). -/
structure DataFrame where
  columns : List String
  rows : List (String → ℚ)

/-- One output row of compare_metrics_across_levels: the error_rate and
metric columns plus the derived change and percent_change columns.
`none` models the non-finite floats pandas produces there: NaN for the
first row (from .diff() / shift alignment) and inf or NaN where the
previous metric value is zero. -/
structure CompRow where
  error_rate : ℚ
  value : ℚ
  change : Option ℚ
  percent_change : Option ℚ
deriving DecidableEq, Repr, Inhabited

/-- Row i of the comparison table, written by index exactly as the pandas
column expressions compute it: change = metric.diff(), percent_change =
change / metric.shift(1) * 100. -/
def compRowAt (ers vs : List ℚ) (i : Nat) : CompRow :=
  { error_rate := ers.getD i 0
    value := vs.getD i 0
    change := if i = 0 then none else some (vs.getD i 0 - vs.getD (i - 1) 0)
    percent_change :=
      if i = 0 then none
      else if vs.getD (i - 1) 0 = 0 then none
      else some ((vs.getD i 0 - vs.getD (i - 1) 0) / vs.getD (i - 1) 0 * 100) }

/-- ResultsAnalyzer.compare_metrics_across_levels (comparison.py lines
133-157): check the metric column exists, then derive change and
percent_change per row. -/
def compare_metrics_across_levels (df : DataFrame) (metric : String) :
    Except String (List CompRow) :=
  if metric ∈ df.columns then
    let ers := df.rows.map (fun r => r "error_rate")
    let vs := df.rows.map (fun r => r metric)
    .ok ((List.range df.rows.length).map (compRowAt ers vs))
  else
    .error ("Metric '" ++ metric ++ "' not found in data")

/-- The input-validation predicate of Embedder.encode: a blank single
string, an empty batch, or a batch with a blank element. -/
def badEncodeInput : EncodeInput → Bool
  | .str s => isBlank s
  | .batch l => l.isEmpty || l.any isBlank

/-- The ValueError message encode raises for invalid input. -/
def inputErrorMsg : EncodeInput → String
  | .str _ => "Input text cannot be empty"
  | .batch _ => "Input texts cannot be empty"

/-- The string needle occurs somewhere inside hay. -/
def mentions (needle hay : String) : Prop :=
  ∃ pre post, hay = pre ++ needle ++ post

/-- A concrete local-backend embedder used to instantiate theorems. -/
noncomputable def sampleE : Embedder :=
  { use_openai := false
    model := fun t => if t = "x" then [3, 4] else [5, 12]
    client := fun _ => [] }

/-- A local-backend embedder whose model returns a zero vector. -/
noncomputable def zeroE : Embedder :=
  { use_openai := false
    model := fun _ => [0]
    client := fun _ => [0] }

/-- An OpenAI-backend embedder whose API returns a non-unit vector. -/
noncomputable def openaiE : Embedder :=
  { use_openai := true
    model := fun _ => []
    client := fun _ => [3, 4] }

/-- The four-row table of the cross-level comparison test case:
(error_rate, cosine_distance) pairs (0,0.0), (10,0.1), (20,0.25),
(30,0.4). -/
def df6 : DataFrame :=
  { columns := ["error_rate", "cosine_distance"]
    rows := [fun c => if c = "error_rate" then 0 else 0,
             fun c => if c = "error_rate" then 10 else 1/10,
             fun c => if c = "error_rate" then 20 else 1/4,
             fun c => if c = "error_rate" then 30 else 2/5] }

/-- A table whose middle row has metric value 0, so the following row's
percent change divides by zero. -/
def df9 : DataFrame :=
  { columns := ["error_rate", "cosine_distance"]
    rows := [fun c => if c = "error_rate" then 0 else 1/2,
             fun c => if c = "error_rate" then 10 else 0,
             fun c => if c = "error_rate" then 20 else 3] }

/-! Helper lemmas. -/

theorem strAppendAssoc (a b c : String) : a ++ b ++ c = a ++ (b ++ c) := by
  apply String.ext
  simp [String.data_append, List.append_assoc]

theorem getD_range_map {α : Type} (f : ℕ → α) (n j : ℕ) (d : α) (h : j < n) :
    ((List.range n).map f).getD j d = f j := by
  rw [List.getD_eq_getElem?_getD, List.getElem?_map, List.getElem?_range h]
  rfl

theorem pySplit_aa : pySplit "a a" = ["a", "a"] := by decide

theorem pySplit_blank : pySplit "   " = [] := by decide

/-! Claim theorems. -/

/-- C6: on the four-row table with (error_rate, cosine_distance) pairs
(0, 0.0), (10, 0.1), (20, 0.25), (30, 0.4), compare_metrics_across_levels
for "cosine_distance" yields change null for row 0, change 0.1 for row 1,
change 0.15 for row 2 and percent_change 150.0 for row 2. -/
theorem compare_metrics_concrete_table :
    ∃ rows, compare_metrics_across_levels df6 "cosine_distance" = .ok rows ∧
      rows.length = 4 ∧
      (rows.getD 0 default).change = none ∧
      (rows.getD 1 default).change = some (1/10) ∧
      (rows.getD 2 default).change = some (3/20) ∧
      (rows.getD 2 default).percent_change = some 150 := by
  refine ⟨_, rfl, ?_, ?_, ?_, ?_, ?_⟩ <;>
    simp [df6, compare_metrics_across_levels, compRowAt, List.range_succ] <;>
    norm_num

/-- C9: in compare_metrics_across_levels, whenever a row's predecessor has
metric value exactly 0 the following row's percent_change is a non-finite
float (the division by the shifted column is unguarded), even though that
row's change is a well-defined finite value. -/
theorem percent_change_none_of_zero_prev (df : DataFrame) (metric : String)
    (hm : metric ∈ df.columns) (i : ℕ) (hi : i + 1 < df.rows.length)
    (hz : (df.rows.map (fun r => r metric)).getD i 0 = 0) :
    ∃ rows, compare_metrics_across_levels df metric = .ok rows ∧
      (rows.getD (i + 1) default).percent_change = none ∧
      ((rows.getD (i + 1) default).change).isSome = true := by
  refine ⟨(List.range df.rows.length).map
      (compRowAt (df.rows.map (fun r => r "error_rate"))
        (df.rows.map (fun r => r metric))), ?_, ?_, ?_⟩
  · simp [compare_metrics_across_levels, hm]
  · rw [getD_range_map _ _ _ _ hi]
    simp only [List.getD_eq_getElem?_getD, List.getElem?_map] at hz
    simp [compRowAt, hz]
  · rw [getD_range_map _ _ _ _ hi]
    simp [compRowAt]

theorem percent_change_none_of_zero_prev_witness :
    ("cosine_distance" ∈ df9.columns) ∧ 1 + 1 < df9.rows.length ∧
    (df9.rows.map (fun r => r "cosine_distance")).getD 1 0 = 0 ∧
    ∃ rows, compare_metrics_across_levels df9 "cosine_distance" = .ok rows ∧
      (rows.getD 2 default).percent_change = none ∧
      ((rows.getD 2 default).change).isSome = true := by
  refine ⟨by decide, by decide, by simp [df9], ?_⟩
  exact percent_change_none_of_zero_prev df9 "cosine_distance" (by decide) 1
    (by decide) (by simp [df9])

/-- C5 counterexample: the claim fails as stated.  For the non-empty text
"a a" (a repeated word) common_words is the distinct-word count 1, not the
word count 2, and the retention rate is 1/2, not 1.0; for the non-empty
all-whitespace text the retention rate is 0, not 1.0. -/
theorem text_changes_identical_cex :
    ("a a" : String) ≠ "" ∧
    (calculate_text_changes "a a" "a a").original_word_count = 2 ∧
    (calculate_text_changes "a a" "a a").common_words = 1 ∧
    (calculate_text_changes "a a" "a a").word_retention_rate = 1/2 ∧
    ("   " : String) ≠ "" ∧
    (calculate_text_changes "   " "   ").word_retention_rate = 0 := by
  refine ⟨by decide, by decide, by decide, ?_, by decide, ?_⟩
  · simp [calculate_text_changes, pySplit_aa]
  · simp [calculate_text_changes, pySplit_blank]

/-- C5 (amended): for every text with at least one word and no repeated
word, calculate_text_changes of the text with itself returns common_words
equal to the original word count, no added or removed words, and retention
rate exactly 1. -/
theorem text_changes_identical_nodup (original : String)
    (hne : pySplit original ≠ []) (hnd : (pySplit original).Nodup) :
    (calculate_text_changes original original).common_words =
      (calculate_text_changes original original).original_word_count ∧
    (calculate_text_changes original original).added_words = 0 ∧
    (calculate_text_changes original original).removed_words = 0 ∧
    (calculate_text_changes original original).word_retention_rate = 1 := by
  have hlen : (pySplit original).length ≠ 0 := by
    simpa [List.length_eq_zero] using hne
  have hcard : (pySplit original).toFinset.card = (pySplit original).length :=
    List.toFinset_card_of_nodup hnd
  refine ⟨?_, ?_, ?_, ?_⟩ <;>
    simp [calculate_text_changes, Finset.inter_self, Finset.sdiff_self, hcard,
      List.isEmpty_iff, hne, div_self, Nat.cast_ne_zero.mpr hlen]

theorem text_changes_identical_nodup_witness :
    pySplit "a b" ≠ [] ∧ (pySplit "a b").Nodup ∧
    ((calculate_text_changes "a b" "a b").common_words =
      (calculate_text_changes "a b" "a b").original_word_count ∧
    (calculate_text_changes "a b" "a b").added_words = 0 ∧
    (calculate_text_changes "a b" "a b").removed_words = 0 ∧
    (calculate_text_changes "a b" "a b").word_retention_rate = 1) :=
  ⟨by decide, by decide, text_changes_identical_nodup "a b" (by decide) (by decide)⟩

/-- C7: encode fails with an InputError, independently of the configured
backend, whenever the input is a blank string, an empty list, or a list
containing a blank element; since the error is the same for every
embedder, no backend call takes place. -/
theorem encode_blank_input_error (e : Embedder) (input : EncodeInput)
    (normalize : Bool) (h : badEncodeInput input = true) :
    e.encode input normalize = .error (.inputError (inputErrorMsg input)) := by
  cases input with
  | str s => simp only [badEncodeInput] at h; simp [Embedder.encode, h, inputErrorMsg]
  | batch l => simp only [badEncodeInput] at h; simp [Embedder.encode, h, inputErrorMsg]

theorem encode_blank_input_error_witness :
    sampleE.encode (.str "") true =
      .error (.inputError "Input text cannot be empty") ∧
    sampleE.encode (.str "   ") true =
      .error (.inputError "Input text cannot be empty") ∧
    sampleE.encode (.batch []) false =
      .error (.inputError "Input texts cannot be empty") ∧
    sampleE.encode (.batch ["ok", " "]) true =
      .error (.inputError "Input texts cannot be empty") :=
  ⟨encode_blank_input_error sampleE (.str "") true (by decide),
   encode_blank_input_error sampleE (.str "   ") true (by decide),
   encode_blank_input_error sampleE (.batch []) false (by decide),
   encode_blank_input_error sampleE (.batch ["ok", " "]) true (by decide)⟩

/-- C8: for every metric name outside the supported set,
calculate_distance fails with an UnsupportedMetricError whose message
enumerates cosine, euclidean and manhattan, and this happens for every
backend identically, before any embedding is computed. -/
theorem calculate_distance_unsupported_metric (e : Embedder)
    (t1 t2 metric : String) (h : metric ∉ VectorMetrics.supported_metrics) :
    VectorMetrics.calculate_distance e t1 t2 metric =
      .error (.unsupportedMetric (VectorMetrics.unsupportedMsg metric)) ∧
    mentions "cosine" (VectorMetrics.unsupportedMsg metric) ∧
    mentions "euclidean" (VectorMetrics.unsupportedMsg metric) ∧
    mentions "manhattan" (VectorMetrics.unsupportedMsg metric) := by
  refine ⟨by simp [VectorMetrics.calculate_distance, h], ?_, ?_, ?_⟩
  · refine ⟨"Metric '" ++ metric ++ "' not supported. Use one of: ['",
      "', 'euclidean', 'manhattan']", ?_⟩
    simp only [VectorMetrics.unsupportedMsg, strAppendAssoc]
    congr 2
  · refine ⟨"Metric '" ++ metric ++ "' not supported. Use one of: ['cosine', '",
      "', 'manhattan']", ?_⟩
    simp only [VectorMetrics.unsupportedMsg, strAppendAssoc]
    congr 2
  · refine ⟨"Metric '" ++ metric ++ "' not supported. Use one of: ['cosine', 'euclidean', '",
      "']", ?_⟩
    simp only [VectorMetrics.unsupportedMsg, strAppendAssoc]
    congr 2

theorem calculate_distance_unsupported_metric_witness :
    ("hamming" ∉ VectorMetrics.supported_metrics) ∧
    (VectorMetrics.calculate_distance sampleE "a" "b" "hamming" =
      .error (.unsupportedMetric (VectorMetrics.unsupportedMsg "hamming")) ∧
    mentions "cosine" (VectorMetrics.unsupportedMsg "hamming") ∧
    mentions "euclidean" (VectorMetrics.unsupportedMsg "hamming") ∧
    mentions "manhattan" (VectorMetrics.unsupportedMsg "hamming")) :=
  ⟨by decide, calculate_distance_unsupported_metric sampleE "a" "b" "hamming" (by decide)⟩

/-- C10: the rank of encode's output follows the kind of its input: a
single string yields one vector of shape (dim,), while a one-element list
yields a matrix of shape (1, dim), and the two shapes are never equal. -/
theorem encode_shape_depends_on_input_kind (e : Embedder) (t : String)
    (normalize : Bool) (h : isBlank t = false) :
    ∃ v, e.encode (.str t) normalize = .ok (.single v) ∧
      e.encode (.batch [t]) normalize = .ok (.matrix [v]) ∧
      (EncodeOutput.single v).shape = [v.length] ∧
      (EncodeOutput.matrix [v]).shape = [1, v.length] ∧
      (EncodeOutput.single v).shape ≠ (EncodeOutput.matrix [v]).shape := by
  refine ⟨if e.use_openai then e.client t
    else if normalize then snNormalize (e.model t) else e.model t, ?_, ?_, ?_, ?_, ?_⟩
  · cases hb : e.use_openai <;>
      simp [Embedder.encode, h, hb, encodeOpenai, encodeSentenceTransformer]
  · cases hb : e.use_openai <;>
      simp [Embedder.encode, h, hb, encodeOpenai, encodeSentenceTransformer]
  · rfl
  · rfl
  · simp [EncodeOutput.shape]

theorem encode_shape_depends_on_input_kind_witness :
    isBlank "x" = false ∧
    ∃ v, sampleE.encode (.str "x") false = .ok (.single v) ∧
      sampleE.encode (.batch ["x"]) false = .ok (.matrix [v]) ∧
      (EncodeOutput.single v).shape = [v.length] ∧
      (EncodeOutput.matrix [v]).shape = [1, v.length] ∧
      (EncodeOutput.single v).shape ≠ (EncodeOutput.matrix [v]).shape :=
  ⟨by decide, encode_shape_depends_on_input_kind sampleE "x" false (by decide)⟩

/-! Vector arithmetic lemmas. -/

theorem dot_cons (a b : ℝ) (u v : Vec) :
    dot (a :: u) (b :: v) = a * b + dot u v := by
  simp [dot]

theorem norm2_nonneg (v : Vec) : 0 ≤ norm2 v := by
  induction v with
  | nil => exact le_refl 0
  | cons a t ih =>
      have h : norm2 (a :: t) = a * a + norm2 t := dot_cons a a t t
      rw [h]
      exact add_nonneg (mul_self_nonneg a) ih

theorem dot_map_div (c d : ℝ) (u : Vec) : ∀ v : Vec,
    dot (u.map fun x => x / c) (v.map fun x => x / d) = dot u v / (c * d) := by
  induction u with
  | nil => intro v; simp [dot]
  | cons a u ih =>
      intro v
      cases v with
      | nil => simp [dot]
      | cons b v =>
          simp only [List.map_cons, dot_cons, ih v]
          ring

theorem norm2_snNormalize (v : Vec) (h : norm2 v ≠ 0) :
    norm2 (snNormalize v) = 1 := by
  have hnn := norm2_nonneg v
  have hs : Real.sqrt (norm2 v) * Real.sqrt (norm2 v) = norm2 v :=
    Real.mul_self_sqrt hnn
  simp only [snNormalize, if_neg h]
  show dot (v.map fun x => x / Real.sqrt (norm2 v))
      (v.map fun x => x / Real.sqrt (norm2 v)) = 1
  rw [dot_map_div, hs]
  exact div_self h

theorem scipyCosine_eq_of_ne (u v : Vec) (hu : norm2 u ≠ 0) (hv : norm2 v ≠ 0) :
    scipyCosine u v =
      some (1 - dot u v / (Real.sqrt (norm2 u) * Real.sqrt (norm2 v))) := by
  have hne : norm2 u * norm2 v ≠ 0 := mul_ne_zero hu hv
  simp only [scipyCosine, if_neg hne]
  rw [Real.sqrt_mul (norm2_nonneg u)]

theorem scipyCosine_snNormalize (u v : Vec) :
    scipyCosine (snNormalize u) (snNormalize v) = scipyCosine u v := by
  by_cases hu : norm2 u = 0
  · have h1 : snNormalize u = u := by simp [snNormalize, hu]
    rw [h1]
    simp [scipyCosine, hu]
  · by_cases hv : norm2 v = 0
    · have h2 : snNormalize v = v := by simp [snNormalize, hv]
      rw [h2]
      simp [scipyCosine, hv]
    · have h1 := norm2_snNormalize u hu
      have h2 := norm2_snNormalize v hv
      rw [scipyCosine_eq_of_ne _ _ (by rw [h1]; exact one_ne_zero)
            (by rw [h2]; exact one_ne_zero),
          scipyCosine_eq_of_ne u v hu hv, h1, h2]
      congr 1
      simp only [snNormalize, if_neg hu, if_neg hv]
      rw [dot_map_div, Real.sqrt_one]
      norm_num

/-! Lemmas about the embedding pipeline. -/

theorem embedText_false (e : Embedder) (t : String) (h : isBlank t = false) :
    embedText e t false = .ok (rawEmbed e t) := by
  cases hb : e.use_openai <;>
    simp [embedText, Embedder.encode, h, hb, rawEmbed, encodeOpenai,
      encodeSentenceTransformer]

theorem embedText_true (e : Embedder) (t : String) (h : isBlank t = false) :
    embedText e t true = .ok (normEmbed e t) := by
  cases hb : e.use_openai <;>
    simp [embedText, Embedder.encode, h, hb, normEmbed, encodeOpenai,
      encodeSentenceTransformer]

theorem calculate_all_metrics_ok (e : Embedder) (a b : String)
    (ha : isBlank a = false) (hb : isBlank b = false) :
    calculate_all_metrics e a b = .ok
      { cosine_distance := VectorMetrics.cosine_distance (rawEmbed e a) (rawEmbed e b)
        cosine_similarity := VectorMetrics.cosine_similarity (rawEmbed e a) (rawEmbed e b)
        euclidean_distance := VectorMetrics.euclidean_distance (rawEmbed e a) (rawEmbed e b)
        manhattan_distance := VectorMetrics.manhattan_distance (rawEmbed e a) (rawEmbed e b) } := by
  simp [calculate_all_metrics, embedText_false e a ha, embedText_false e b hb]

theorem cosineSim_normEmbed (e : Embedder) (a b : String) :
    VectorMetrics.cosine_similarity (normEmbed e a) (normEmbed e b) =
      VectorMetrics.cosine_similarity (rawEmbed e a) (rawEmbed e b) := by
  cases hb : e.use_openai
  · simp [normEmbed, rawEmbed, hb, VectorMetrics.cosine_similarity,
      scipyCosine_snNormalize]
  · simp [normEmbed, rawEmbed, hb]

theorem norm2_sample_x : norm2 (rawEmbed sampleE "x") ≠ 0 := by
  simp [rawEmbed, sampleE, norm2, dot]
  norm_num

theorem norm2_sample_y : norm2 (rawEmbed sampleE "y") ≠ 0 := by
  simp [rawEmbed, sampleE, norm2, dot]
  norm_num

/-- C1 (amended): for every backend and pair of non-blank texts whose raw
embeddings both have nonzero squared L2 norm, the cosine_distance and
cosine_similarity entries of calculate_all_metrics are finite and sum
exactly to 1. -/
theorem cosine_metrics_sum_one (e : Embedder) (a b : String)
    (ha : isBlank a = false) (hb : isBlank b = false)
    (hna : norm2 (rawEmbed e a) ≠ 0) (hnb : norm2 (rawEmbed e b) ≠ 0) :
    ∃ m d s, calculate_all_metrics e a b = .ok m ∧
      m.cosine_distance = some d ∧ m.cosine_similarity = some s ∧
      d + s = 1 := by
  refine ⟨_,
    1 - dot (rawEmbed e a) (rawEmbed e b) /
      (Real.sqrt (norm2 (rawEmbed e a)) * Real.sqrt (norm2 (rawEmbed e b))),
    1 - (1 - dot (rawEmbed e a) (rawEmbed e b) /
      (Real.sqrt (norm2 (rawEmbed e a)) * Real.sqrt (norm2 (rawEmbed e b)))),
    calculate_all_metrics_ok e a b ha hb, ?_, ?_, by ring⟩
  · show VectorMetrics.cosine_distance _ _ = _
    rw [VectorMetrics.cosine_distance, scipyCosine_eq_of_ne _ _ hna hnb]
  · show VectorMetrics.cosine_similarity _ _ = _
    rw [VectorMetrics.cosine_similarity, scipyCosine_eq_of_ne _ _ hna hnb]
    rfl

theorem cosine_metrics_sum_one_witness :
    isBlank "x" = false ∧ isBlank "y" = false ∧
    norm2 (rawEmbed sampleE "x") ≠ 0 ∧ norm2 (rawEmbed sampleE "y") ≠ 0 ∧
    ∃ m d s, calculate_all_metrics sampleE "x" "y" = .ok m ∧
      m.cosine_distance = some d ∧ m.cosine_similarity = some s ∧
      d + s = 1 :=
  ⟨by decide, by decide, norm2_sample_x, norm2_sample_y,
    cosine_metrics_sum_one sampleE "x" "y" (by decide) (by decide)
      norm2_sample_x norm2_sample_y⟩

/-- C1 counterexample: with a backend whose embeddings are zero vectors,
both cosine entries of calculate_all_metrics are NaN, so they do not sum
to 1 as the unconditional claim states. -/
theorem cosine_metrics_sum_cex :
    ∃ m, calculate_all_metrics zeroE "a" "b" = .ok m ∧
      m.cosine_distance = none ∧ m.cosine_similarity = none ∧
      ¬ ∃ d s, m.cosine_distance = some d ∧ m.cosine_similarity = some s ∧
        d + s = 1 := by
  have hcd : VectorMetrics.cosine_distance (rawEmbed zeroE "a") (rawEmbed zeroE "b") = none := by
    simp [VectorMetrics.cosine_distance, scipyCosine, rawEmbed, zeroE, norm2, dot]
  have hcs : VectorMetrics.cosine_similarity (rawEmbed zeroE "a") (rawEmbed zeroE "b") = none := by
    simp [VectorMetrics.cosine_similarity, scipyCosine, rawEmbed, zeroE, norm2, dot]
  refine ⟨_, calculate_all_metrics_ok zeroE "a" "b" (by decide) (by decide),
    hcd, hcs, ?_⟩
  rintro ⟨d, s, hd, _, _⟩
  rw [hcd] at hd
  exact Option.noConfusion hd

/-- C2 (amended): for every backend and pair of non-blank texts whose raw
embeddings have nonzero squared norm, all four entries of
calculate_all_metrics are finite (the euclidean and manhattan entries are
finite reals by construction; the two cosine entries are finite). -/
theorem all_metrics_finite_of_nonzero_norms (e : Embedder) (a b : String)
    (ha : isBlank a = false) (hb : isBlank b = false)
    (hna : norm2 (rawEmbed e a) ≠ 0) (hnb : norm2 (rawEmbed e b) ≠ 0) :
    ∃ m, calculate_all_metrics e a b = .ok m ∧
      m.cosine_distance.isSome = true ∧ m.cosine_similarity.isSome = true := by
  refine ⟨_, calculate_all_metrics_ok e a b ha hb, ?_, ?_⟩
  · show (VectorMetrics.cosine_distance _ _).isSome = true
    rw [VectorMetrics.cosine_distance, scipyCosine_eq_of_ne _ _ hna hnb]
    rfl
  · show (VectorMetrics.cosine_similarity _ _).isSome = true
    rw [VectorMetrics.cosine_similarity, scipyCosine_eq_of_ne _ _ hna hnb]
    rfl

theorem all_metrics_finite_witness :
    isBlank "x" = false ∧ isBlank "y" = false ∧
    norm2 (rawEmbed sampleE "x") ≠ 0 ∧ norm2 (rawEmbed sampleE "y") ≠ 0 ∧
    ∃ m, calculate_all_metrics sampleE "x" "y" = .ok m ∧
      m.cosine_distance.isSome = true ∧ m.cosine_similarity.isSome = true :=
  ⟨by decide, by decide, norm2_sample_x, norm2_sample_y,
    all_metrics_finite_of_nonzero_norms sampleE "x" "y" (by decide) (by decide)
      norm2_sample_x norm2_sample_y⟩

/-- C2 counterexample: with a backend producing a zero-norm embedding,
the cosine entries of calculate_all_metrics are NaN (0/0 inside the scipy
cosine): no deterministic finite policy resolves the zero-norm case, the
NaN simply propagates. -/
theorem all_metrics_nan_on_zero_vector :
    ∃ m, calculate_all_metrics zeroE "u" "v" = .ok m ∧
      m.cosine_distance = none ∧ m.cosine_similarity = none := by
  refine ⟨_, calculate_all_metrics_ok zeroE "u" "v" (by decide) (by decide), ?_, ?_⟩
  · show VectorMetrics.cosine_distance _ _ = none
    simp [VectorMetrics.cosine_distance, scipyCosine, rawEmbed, zeroE, norm2, dot]
  · show VectorMetrics.cosine_similarity _ _ = none
    simp [VectorMetrics.cosine_similarity, scipyCosine, rawEmbed, zeroE, norm2, dot]

/-- C3: for every backend and pair of non-blank texts, calculate_all_metrics
returns exactly the values the individual methods return: calculate_distance
for cosine, euclidean and manhattan, and calculate_similarity for cosine —
although the latter embeds with normalize=True, cosine is invariant under
unit normalization. -/
theorem calculate_all_metrics_agrees_individual (e : Embedder) (a b : String)
    (ha : isBlank a = false) (hb : isBlank b = false) :
    ∃ m, calculate_all_metrics e a b = .ok m ∧
      VectorMetrics.calculate_distance e a b "cosine" = .ok m.cosine_distance ∧
      VectorMetrics.calculate_distance e a b "euclidean" =
        .ok (some m.euclidean_distance) ∧
      VectorMetrics.calculate_distance e a b "manhattan" =
        .ok (some m.manhattan_distance) ∧
      VectorMetrics.calculate_similarity e a b "cosine" =
        .ok m.cosine_similarity := by
  refine ⟨_, calculate_all_metrics_ok e a b ha hb, ?_, ?_, ?_, ?_⟩
  · simp [VectorMetrics.calculate_distance, VectorMetrics.supported_metrics,
      embedText_false e a ha, embedText_false e b hb]
  · simp [VectorMetrics.calculate_distance, VectorMetrics.supported_metrics,
      embedText_false e a ha, embedText_false e b hb]
  · simp [VectorMetrics.calculate_distance, VectorMetrics.supported_metrics,
      embedText_false e a ha, embedText_false e b hb]
  · simp [VectorMetrics.calculate_similarity, embedText_true e a ha,
      embedText_true e b hb, cosineSim_normEmbed]

theorem calculate_all_metrics_agrees_individual_witness :
    isBlank "x" = false ∧ isBlank "y" = false ∧
    ∃ m, calculate_all_metrics sampleE "x" "y" = .ok m ∧
      VectorMetrics.calculate_distance sampleE "x" "y" "cosine" =
        .ok m.cosine_distance ∧
      VectorMetrics.calculate_distance sampleE "x" "y" "euclidean" =
        .ok (some m.euclidean_distance) ∧
      VectorMetrics.calculate_distance sampleE "x" "y" "manhattan" =
        .ok (some m.manhattan_distance) ∧
      VectorMetrics.calculate_similarity sampleE "x" "y" "cosine" =
        .ok m.cosine_similarity :=
  ⟨by decide, by decide,
    calculate_all_metrics_agrees_individual sampleE "x" "y" (by decide) (by decide)⟩

/-- C4 code bug: the OpenAI branch of encode never receives the normalize
flag (embeddings.py line 110 calls _encode_openai(texts) without it), so
with an OpenAI backend whose API returns the non-unit vector [3, 4],
encode(text, normalize=True) returns [3, 4] unchanged — its squared norm
is 25, not 1, and it differs from the unit-normalized vector [3/5, 4/5]
the contract requires. -/
theorem openai_encode_ignores_normalize :
    openaiE.encode (.str "hello") true = .ok (.single [(3:ℝ), 4]) ∧
    norm2 [(3:ℝ), 4] = 25 ∧
    snNormalize [(3:ℝ), 4] = [3/5, 4/5] ∧
    ([(3:ℝ), 4] : Vec) ≠ [3/5, 4/5] := by
  have h25 : norm2 [(3:ℝ), 4] = 25 := by
    simp [norm2, dot]
    norm_num
  have hs : Real.sqrt 25 = 5 := by
    rw [show (25:ℝ) = 5 ^ 2 by norm_num]
    exact Real.sqrt_sq (by norm_num)
  refine ⟨?_, h25, ?_, ?_⟩
  · have hbl : isBlank "hello" = false := by decide
    simp [Embedder.encode, openaiE, encodeOpenai, hbl]
  · rw [snNormalize, if_neg (by rw [h25]; norm_num), h25, hs]
    norm_num
  · intro hEq
    have h3 : (3:ℝ) = 3/5 := by
      have := List.head_eq_of_cons_eq hEq
      exact this
    norm_num at h3

end TransAnalysis
